import Mathlib

/-!
Verification of the `sysconfig` configuration tools
(`src/workers/sysconfig/tools/import-config.py` and
`src/workers/sysconfig/tools/export-config.py`).

Each script is embedded as a pure function from the external world
(the results the file system and the NEF RPC layer would return) and
the process arguments to a trace of observable events together with a
process outcome.  The embedding follows the Python sources statement by
statement: the NEF client is constructed first, then the script-specific
logic runs, and an uncaught Python exception terminates the process with
a nonzero status.
-/

namespace Sysconfig

/-- Failure modes of the NEF RPC layer, as named by the spec's error
taxonomy.  `connectionError` can only arise while constructing the
client; the other three arise after a request has been sent. -/
inductive RpcFailure
  | connectionError
  | remoteError
  | timeoutError
  | transportError
deriving DecidableEq, Repr

/-- Uncaught Python exceptions that terminate a script.  `stringRaise`
models the bare `raise "…"` statement in `import-config.py` (an
unstructured error, not a typed usage error); `fileError` models an
IOError from `open`/`read`/`write`; `rpcError` wraps an RPC failure
propagating out of the NEF library; `indexError` models `sys.argv[1]`
on a too-short argument list. -/
inductive PyError
  | stringRaise (msg : String)
  | fileError (path : String)
  | rpcError (f : RpcFailure)
  | indexError
deriving DecidableEq, Repr

/-- How a script invocation terminates: normal end of module
(`exitOk`, Python exit status 0) or an uncaught exception
(`uncaught`, Python exit status 1). -/
inductive Outcome
  | exitOk
  | uncaught (e : PyError)
deriving DecidableEq, Repr

/-- The process exit status determined by the outcome: 0 on normal
termination, 1 (nonzero) on an uncaught exception. -/
def exitCode : Outcome → Nat
  | .exitOk => 0
  | .uncaught _ => 1

/-- Observable events of a script run, in program order. -/
inductive Event
  | clientConstruct (endpoint : String)
  | rpcRequest (worker method : String) (namedArgs : List (String × String))
  | rpcReply
  | openRead (path : String)
  | readAll (path : String) (content : String)
  | openWrite (path : String)
  | writeFile (path : String) (content : String)
  | closeFile (path : String)
  | printOut (s : String)
deriving DecidableEq, Repr

/-- The behaviour of the external collaborators over one script run:
whether constructing/connecting the NEF client succeeds, what reading a
file yields (`none` = IOError), whether opening a file for writing
succeeds, and what the two worker methods reply. -/
structure World where
  connectOk : Bool
  readFile : String → Option String
  writeOk : String → Bool
  exportRPC : Except RpcFailure String
  importRPC : String → Except RpcFailure Unit

/-- The broker endpoint hard-coded in both scripts. -/
def brokerEndpoint : String := "tcp://127.0.0.1:5557"

/-- Embedding of `import-config.py`.  `argv` is `sys.argv` (program
name included); `env` is the process environment, which the script
never reads.  The client is constructed first; then `len(sys.argv) != 2`
raises a bare string; then the file is opened, fully read and closed;
then the single `importConfiguration(configuration=config)` call is
issued. -/
def importConfigRun (w : World) (argv : List String)
    (env : List (String × String)) : List Event × Outcome :=
  let tr0 := [Event.clientConstruct brokerEndpoint]
  if w.connectOk = false then
    (tr0, .uncaught (.rpcError .connectionError))
  else
    match argv with
    | [_, path] =>
      match w.readFile path with
      | none => (tr0 ++ [.openRead path], .uncaught (.fileError path))
      | some config =>
        let tr1 := tr0 ++ [.openRead path, .readAll path config, .closeFile path,
          .rpcRequest "sysconfig" "importConfiguration" [("configuration", config)]]
        match w.importRPC config with
        | .error e => (tr1, .uncaught (.rpcError e))
        | .ok _ => (tr1 ++ [.rpcReply], .exitOk)
    | _ =>
      (tr0, .uncaught (.stringRaise "Please pass only config file as first argument"))

/-- Embedding of `export-config.py`.  The client is constructed, the
zero-argument `exportConfiguration()` call is issued, and only then is
the argument count inspected: with no argument the payload is printed
(Python's `print` appends a newline), otherwise the payload is written
to the file named by `sys.argv[1]` opened in `'w'` mode. -/
def exportConfigRun (w : World) (argv : List String)
    (env : List (String × String)) : List Event × Outcome :=
  let tr0 := [Event.clientConstruct brokerEndpoint]
  if w.connectOk = false then
    (tr0, .uncaught (.rpcError .connectionError))
  else
    let tr1 := tr0 ++ [.rpcRequest "sysconfig" "exportConfiguration" []]
    match w.exportRPC with
    | .error e => (tr1, .uncaught (.rpcError e))
    | .ok config =>
      let tr2 := tr1 ++ [.rpcReply]
      match argv with
      | [_] => (tr2 ++ [.printOut (config ++ "\n")], .exitOk)
      | _ :: path :: _ =>
        if w.writeOk path then
          (tr2 ++ [.openWrite path, .writeFile path config, .closeFile path], .exitOk)
        else
          (tr2 ++ [.openWrite path], .uncaught (.fileError path))
      | [] => (tr2, .uncaught .indexError)

/-- Whether an event is an outgoing RPC request. -/
def Event.isRpcRequest : Event → Bool
  | .rpcRequest _ _ _ => true
  | _ => false

/-- Number of RPC requests issued in a trace. -/
def rpcCount (tr : List Event) : Nat :=
  (tr.filter Event.isRpcRequest).length

/-- Everything a run wrote to standard output, concatenated. -/
def stdoutOf (tr : List Event) : String :=
  tr.foldl (fun acc e => match e with | .printOut s => acc ++ s | _ => acc) ""

/-- The contents written to the given file, in order. -/
def writesTo (path : String) (tr : List Event) : List String :=
  tr.filterMap (fun e => match e with
    | .writeFile p c => if p = path then some c else none
    | _ => none)

/-- The value bound to the named argument `configuration` in the first
`importConfiguration` request of a trace, if any. -/
def sentConfiguration (tr : List Event) : Option String :=
  tr.findSome? (fun e => match e with
    | .rpcRequest _ "importConfiguration" args =>
        (args.find? (fun kv => kv.1 = "configuration")).map Prod.snd
    | _ => none)

/-- Modelled from the spec: the `sysconfig` worker implementation is not
under `src/` (only its command-line tools are).  Per the spec, the
worker's state is an opaque configuration blob treated as an
uninterpreted string; `importConfiguration` stores the submitted blob
and `exportConfiguration` returns the stored blob unchanged. -/
structure SysconfigWorker where
  configuration : String
deriving DecidableEq, Repr

def SysconfigWorker.exportConfiguration (wkr : SysconfigWorker) : String :=
  wkr.configuration

def SysconfigWorker.importConfiguration (wkr : SysconfigWorker)
    (configuration : String) : SysconfigWorker :=
  { configuration := configuration }

/-- The world seen by a tool talking to worker `wkr` over a file system
`fs`, with all local I/O and the connection succeeding. -/
def worldOf (wkr : SysconfigWorker) (fs : String → Option String) : World :=
  { connectOk := true
    readFile := fs
    writeOk := fun _ => true
    exportRPC := .ok wkr.exportConfiguration
    importRPC := fun _ => .ok () }

/-- Run the export tool against worker `wkr` with output file `path`;
return the content the tool writes to that file. -/
def exportViaTool (wkr : SysconfigWorker) (path : String) : Option String :=
  (writesTo path
    (exportConfigRun (worldOf wkr (fun _ => none)) ["export-config.py", path] []).1).head?

/-- Run the import tool on a file at `path` holding `fileContent`;
return the worker state after the worker receives the configuration the
tool actually sent. -/
def importViaTool (wkr : SysconfigWorker) (path fileContent : String) :
    Option SysconfigWorker :=
  let w := worldOf wkr (fun p => if p = path then some fileContent else none)
  match sentConfiguration (importConfigRun w ["import-config.py", path] []).1 with
  | some c => some (wkr.importConfiguration c)
  | none => none

/-- Export the worker's configuration `T` to a file, import that file
back, and export again. -/
def exportImportExport (T : String) : Option String :=
  let wkr0 : SysconfigWorker := ⟨T⟩
  match exportViaTool wkr0 "out.cfg" with
  | none => none
  | some fileContent =>
    match importViaTool wkr0 "out.cfg" fileContent with
    | none => none
    | some wkr1 => exportViaTool wkr1 "out2.cfg"

/-- A fully succeeding world used to instantiate theorems on concrete
inputs: every file reads as `"key=value\n"`, writes succeed, the worker
replies `"key=value\n"` to export and acknowledges import. -/
def wDemo : World :=
  { connectOk := true
    readFile := fun _ => some "key=value\n"
    writeOk := fun _ => true
    exportRPC := .ok "key=value\n"
    importRPC := fun _ => .ok () }

end Sysconfig

namespace Sysconfig

/-- C1 counterexample: invoking the import tool with zero file
arguments does construct the RPC client before the argument count is
validated (it is the first and only event of the run), and the failure
is a raised bare string, not a `UsageError`. -/
theorem importWrongArgcConstructsClientFirst :
    (importConfigRun wDemo ["import-config.py"] []).1 =
      [Event.clientConstruct "tcp://127.0.0.1:5557"] ∧
    (importConfigRun wDemo ["import-config.py"] []).2 =
      .uncaught (.stringRaise "Please pass only config file as first argument") := by
  constructor <;> rfl

/-- C1 (amended): with zero or two-or-more file arguments the import
tool fails by raising a bare string (an unstructured error, not a
`UsageError`); the failure occurs before any file access and before any
RPC request is issued, but only after the RPC client has been
constructed. -/
theorem importWrongArgcRaisesBareString (w : World) (argv : List String)
    (env : List (String × String))
    (hc : w.connectOk = true) (hn : argv.length ≠ 2) :
    (importConfigRun w argv env).2 =
      .uncaught (.stringRaise "Please pass only config file as first argument") ∧
    (importConfigRun w argv env).1 = [Event.clientConstruct brokerEndpoint] := by
  match argv, hn with
  | [], _ => unfold importConfigRun; simp [hc]
  | [a], _ => unfold importConfigRun; simp [hc]
  | [a, b], hn => exact absurd rfl hn
  | a :: b :: c :: rest, _ => unfold importConfigRun; simp [hc]

/-- C1 witness: the amended theorem applied to a concrete
zero-argument invocation. -/
theorem importWrongArgcRaisesBareString_wit :
    wDemo.connectOk = true ∧ ([ "import-config.py" ] : List String).length ≠ 2 ∧
    (importConfigRun wDemo ["import-config.py"] []).2 =
      .uncaught (.stringRaise "Please pass only config file as first argument") :=
  ⟨rfl, by decide,
    (importWrongArgcRaisesBareString wDemo ["import-config.py"] [] rfl (by decide)).1⟩

/-- C2 counterexample: run with no arguments against a worker returning
payload `"key=value\n"`, the export tool writes `"key=value\n\n"` to
standard output — the payload plus the newline appended by `print` —
which is not exactly the payload. -/
theorem exportStdoutNotExactPayload :
    stdoutOf (exportConfigRun wDemo ["export-config.py"] []).1 = "key=value\n\n" ∧
    stdoutOf (exportConfigRun wDemo ["export-config.py"] []).1 ≠ "key=value\n" ∧
    (exportConfigRun wDemo ["export-config.py"] []).2 = .exitOk := by
  refine ⟨rfl, ?_, rfl⟩
  decide

/-- C2 (amended): run with no arguments, the export tool writes the
worker's payload followed by one extra newline (appended by `print`) to
standard output and exits with status 0; for payload `"key=value\n"`
the bytes written are `"key=value\n\n"`. -/
theorem exportStdoutAppendsNewline (w : World) (prog : String)
    (env : List (String × String)) (config : String)
    (hc : w.connectOk = true) (he : w.exportRPC = .ok config) :
    stdoutOf (exportConfigRun w [prog] env).1 = config ++ "\n" ∧
    exitCode (exportConfigRun w [prog] env).2 = 0 := by
  unfold exportConfigRun
  simp [hc, he, stdoutOf, exitCode]

/-- C2 witness: the amended theorem applied to the concrete payload
`"key=value\n"`. -/
theorem exportStdoutAppendsNewline_wit :
    wDemo.connectOk = true ∧ wDemo.exportRPC = .ok "key=value\n" ∧
    stdoutOf (exportConfigRun wDemo ["export-config.py"] []).1 = "key=value\n" ++ "\n" :=
  ⟨rfl, rfl,
    (exportStdoutAppendsNewline wDemo "export-config.py" [] "key=value\n" rfl rfl).1⟩

/-- C3: for any configuration text `T`, exporting the worker's
configuration to a file, importing that file, and exporting again
yields exactly `T`: export after import of `T` is the identity on `T`
(the tools pass the blob through byte-for-byte on the file path). -/
theorem exportImportExportRoundTrip (T : String) :
    exportImportExport T = some T := by
  unfold exportImportExport exportViaTool importViaTool worldOf exportConfigRun
    importConfigRun writesTo sentConfiguration SysconfigWorker.exportConfiguration
    SysconfigWorker.importConfiguration
  simp

/-- C4: with exactly one readable file argument, the import tool reads
the entire file, issues exactly one RPC request — an
`importConfiguration` call on worker `sysconfig` whose single named
argument `configuration` is bound to the full file text — and on
acknowledgement exits with status 0. -/
theorem importSendsWholeFileOnce (w : World) (prog path content : String)
    (env : List (String × String))
    (hc : w.connectOk = true) (hr : w.readFile path = some content)
    (hi : w.importRPC content = .ok ()) :
    (importConfigRun w [prog, path] env).1.filter Event.isRpcRequest =
      [.rpcRequest "sysconfig" "importConfiguration" [("configuration", content)]] ∧
    Event.readAll path content ∈ (importConfigRun w [prog, path] env).1 ∧
    exitCode (importConfigRun w [prog, path] env).2 = 0 := by
  unfold importConfigRun
  simp [hc, hr, hi, exitCode, Event.isRpcRequest, List.filter]

/-- C4 witness: the theorem applied to a concrete readable file holding
`"key=value\n"`. -/
theorem importSendsWholeFileOnce_wit :
    wDemo.connectOk = true ∧ wDemo.readFile "out.cfg" = some "key=value\n" ∧
    wDemo.importRPC "key=value\n" = .ok () ∧
    exitCode (importConfigRun wDemo ["import-config.py", "out.cfg"] []).2 = 0 :=
  ⟨rfl, rfl, rfl,
    (importSendsWholeFileOnce wDemo "import-config.py" "out.cfg" "key=value\n" []
      rfl rfl rfl).2.2⟩

/-- C5: with an output-file path argument, the export tool opens that
file for writing (creating or truncating it), writes exactly the
exported payload to it, writes nothing to standard output, and exits
with status 0. -/
theorem exportWritesPayloadToFile (w : World) (prog path config : String)
    (env : List (String × String))
    (hc : w.connectOk = true) (he : w.exportRPC = .ok config)
    (hw : w.writeOk path = true) :
    writesTo path (exportConfigRun w [prog, path] env).1 = [config] ∧
    Event.openWrite path ∈ (exportConfigRun w [prog, path] env).1 ∧
    stdoutOf (exportConfigRun w [prog, path] env).1 = "" ∧
    exitCode (exportConfigRun w [prog, path] env).2 = 0 := by
  unfold exportConfigRun
  simp [hc, he, hw, writesTo, stdoutOf, exitCode]

/-- C5 witness: the theorem applied to a concrete run writing
`"key=value\n"` to `out.cfg`. -/
theorem exportWritesPayloadToFile_wit :
    wDemo.connectOk = true ∧ wDemo.exportRPC = .ok "key=value\n" ∧
    wDemo.writeOk "out.cfg" = true ∧
    writesTo "out.cfg" (exportConfigRun wDemo ["export-config.py", "out.cfg"] []).1 =
      ["key=value\n"] :=
  ⟨rfl, rfl, rfl,
    (exportWritesPayloadToFile wDemo "export-config.py" "out.cfg" "key=value\n" []
      rfl rfl rfl).1⟩

/-- A world whose worker rejects both calls with a remote error (as when
the worker name is unknown), while local file I/O succeeds. -/
def wErr : World :=
  { connectOk := true
    readFile := fun _ => some "key=value\n"
    writeOk := fun _ => true
    exportRPC := .error .remoteError
    importRPC := fun _ => .error .remoteError }

/-- C6: the scripts install no exception handler, so a failure
terminates the process with a nonzero status and the failure kind
intact; in particular the import tool run against a worker replying
with a remote error propagates that `RemoteError` uncaught, exits
nonzero, and writes neither to any file nor to standard output. -/
theorem remoteErrorPropagatesNonzero (w : World) (prog path content : String)
    (env : List (String × String))
    (hc : w.connectOk = true) (hr : w.readFile path = some content)
    (hi : w.importRPC content = .error .remoteError) :
    (∀ e, exitCode (Outcome.uncaught e) ≠ 0) ∧
    (importConfigRun w [prog, path] env).2 = .uncaught (.rpcError .remoteError) ∧
    exitCode (importConfigRun w [prog, path] env).2 ≠ 0 ∧
    (∀ p c, Event.writeFile p c ∉ (importConfigRun w [prog, path] env).1) ∧
    (∀ s, Event.printOut s ∉ (importConfigRun w [prog, path] env).1) := by
  unfold importConfigRun
  simp [hc, hr, hi, exitCode]

/-- C6 witness: the theorem applied to a concrete run against the
remote-error world. -/
theorem remoteErrorPropagatesNonzero_wit :
    wErr.connectOk = true ∧ wErr.readFile "out.cfg" = some "key=value\n" ∧
    wErr.importRPC "key=value\n" = .error .remoteError ∧
    exitCode (importConfigRun wErr ["import-config.py", "out.cfg"] []).2 ≠ 0 :=
  ⟨rfl, rfl, rfl,
    (remoteErrorPropagatesNonzero wErr "import-config.py" "out.cfg" "key=value\n" []
      rfl rfl rfl).2.2.1⟩

/-- C8: on every invocation — whatever the world, the arguments and the
environment — both tools construct their RPC client with the fixed
endpoint `"tcp://127.0.0.1:5557"` as their very first action, and no
client is ever constructed with any other endpoint. -/
theorem fixedBrokerEndpoint (w : World) (argv : List String)
    (env : List (String × String)) :
    brokerEndpoint = "tcp://127.0.0.1:5557" ∧
    (exportConfigRun w argv env).1.head? =
      some (Event.clientConstruct brokerEndpoint) ∧
    (importConfigRun w argv env).1.head? =
      some (Event.clientConstruct brokerEndpoint) ∧
    (∀ ep, Event.clientConstruct ep ∈ (exportConfigRun w argv env).1 →
      ep = brokerEndpoint) ∧
    (∀ ep, Event.clientConstruct ep ∈ (importConfigRun w argv env).1 →
      ep = brokerEndpoint) := by
  refine ⟨rfl, ?_, ?_, ?_, ?_⟩ <;>
    simp only [exportConfigRun, importConfigRun] <;>
    (repeat' split) <;>
    simp_all

/-- C8 witness: a concrete run from which the endpoint constraint of
the theorem is read back. -/
theorem fixedBrokerEndpoint_wit : "tcp://127.0.0.1:5557" = brokerEndpoint :=
  ((fixedBrokerEndpoint wDemo ["export-config.py"] []).2.2.2.1
    "tcp://127.0.0.1:5557" (by decide)).symm

/-- C7 counterexample: an invocation of the import tool with zero file
arguments issues zero RPC requests, not exactly one. -/
theorem importZeroRpcOnWrongArgc :
    rpcCount (importConfigRun wDemo ["import-config.py"] []).1 = 0 ∧
    rpcCount (importConfigRun wDemo ["import-config.py"] []).1 ≠ 1 := by
  constructor <;> decide

/-- C7 (amended): every invocation of either tool issues at most one
RPC request — no call is ever retried or duplicated — and every
invocation that completes with exit status 0 issues exactly one: the
export tool a zero-argument `exportConfiguration` call, the import tool
a single-named-argument `importConfiguration` call.  Invocations that
fail before the call (connection failure, wrong argument count,
unreadable input file) issue none. -/
theorem atMostOneRpcPerInvocation (w : World) (argv : List String)
    (env : List (String × String)) :
    rpcCount (exportConfigRun w argv env).1 ≤ 1 ∧
    rpcCount (importConfigRun w argv env).1 ≤ 1 ∧
    ((exportConfigRun w argv env).2 = .exitOk →
      (exportConfigRun w argv env).1.filter Event.isRpcRequest =
        [.rpcRequest "sysconfig" "exportConfiguration" []]) ∧
    ((importConfigRun w argv env).2 = .exitOk →
      ∃ c, (importConfigRun w argv env).1.filter Event.isRpcRequest =
        [.rpcRequest "sysconfig" "importConfiguration" [("configuration", c)]]) := by
  refine ⟨?_, ?_, ?_, ?_⟩ <;>
    simp only [exportConfigRun, importConfigRun, rpcCount] <;>
    (repeat' split) <;>
    simp_all [Event.isRpcRequest, List.filter]

/-- C7 witness: a concrete successful import run, whose exit status 0
forces exactly one `importConfiguration` request. -/
theorem atMostOneRpcPerInvocation_wit :
    ∃ c, (importConfigRun wDemo ["import-config.py", "out.cfg"] []).1.filter
      Event.isRpcRequest =
        [.rpcRequest "sysconfig" "importConfiguration" [("configuration", c)]] :=
  (atMostOneRpcPerInvocation wDemo ["import-config.py", "out.cfg"] []).2.2.2 rfl

/-- C9: the export tool opens its output file only after the
`exportConfiguration` call has returned successfully — every trace
containing an open-for-write starts with the client construction, the
request and the reply before it — and a run whose RPC fails never
opens or writes any file. -/
theorem exportOpensFileOnlyAfterReply (w : World) (argv : List String)
    (env : List (String × String)) :
    ((∃ f, (exportConfigRun w argv env).2 = .uncaught (.rpcError f)) →
      ∀ p, Event.openWrite p ∉ (exportConfigRun w argv env).1 ∧
        ∀ c, Event.writeFile p c ∉ (exportConfigRun w argv env).1) ∧
    (∀ p, Event.openWrite p ∈ (exportConfigRun w argv env).1 →
      ∃ config rest, w.exportRPC = .ok config ∧
        (exportConfigRun w argv env).1 =
          Event.clientConstruct brokerEndpoint ::
            Event.rpcRequest "sysconfig" "exportConfiguration" [] ::
              Event.rpcReply :: Event.openWrite p :: rest) := by
  constructor
  · rintro ⟨f, hf⟩ p
    by_cases hcon : w.connectOk = false
    · simp [exportConfigRun, hcon]
    · cases hex : w.exportRPC with
      | error e => simp [exportConfigRun, hcon, hex]
      | ok config =>
        exfalso
        rcases argv with _ | ⟨a, _ | ⟨b, rest⟩⟩
        · simp [exportConfigRun, hcon, hex] at hf
        · simp [exportConfigRun, hcon, hex] at hf
        · by_cases hwk : w.writeOk b = true <;>
            simp [exportConfigRun, hcon, hex, hwk] at hf
  · intro p hp
    by_cases hcon : w.connectOk = false
    · simp [exportConfigRun, hcon] at hp
    · cases hex : w.exportRPC with
      | error e => simp [exportConfigRun, hcon, hex] at hp
      | ok config =>
        rcases argv with _ | ⟨a, _ | ⟨b, rest⟩⟩
        · simp [exportConfigRun, hcon, hex] at hp
        · simp [exportConfigRun, hcon, hex] at hp
        · by_cases hwk : w.writeOk b = true
          · simp [exportConfigRun, hcon, hex, hwk] at hp
            exact ⟨config, [Event.writeFile b config, Event.closeFile b], rfl,
              by simp [exportConfigRun, hcon, hex, hwk, hp]⟩
          · simp [exportConfigRun, hcon, hex, hwk] at hp
            exact ⟨config, [], rfl,
              by simp [exportConfigRun, hcon, hex, hwk, hp]⟩

/-- C9 witness: a concrete successful run to file `out.cfg`, exhibiting
the reply strictly before the file open. -/
theorem exportOpensFileOnlyAfterReply_wit :
    ∃ config rest, wDemo.exportRPC = .ok config ∧
      (exportConfigRun wDemo ["export-config.py", "out.cfg"] []).1 =
        Event.clientConstruct brokerEndpoint ::
          Event.rpcRequest "sysconfig" "exportConfiguration" [] ::
            Event.rpcReply :: Event.openWrite "out.cfg" :: rest :=
  (exportOpensFileOnlyAfterReply wDemo ["export-config.py", "out.cfg"] []).2
    "out.cfg" (by decide)

/-- C10: the import tool opens, fully reads and closes its input file
strictly before issuing the `importConfiguration` request — every trace
containing a request has the open, the read of the sent content and the
close before it — and a run whose input file cannot be read never
issues any request. -/
theorem importReadsFileBeforeRpc (w : World) (argv : List String)
    (env : List (String × String)) :
    ((∃ prog path, argv = [prog, path] ∧ w.readFile path = none) →
      ∀ wk m a, Event.rpcRequest wk m a ∉ (importConfigRun w argv env).1) ∧
    (∀ wk m a, Event.rpcRequest wk m a ∈ (importConfigRun w argv env).1 →
      ∃ path content rest, w.readFile path = some content ∧
        wk = "sysconfig" ∧ m = "importConfiguration" ∧
        a = [("configuration", content)] ∧
        (importConfigRun w argv env).1 =
          Event.clientConstruct brokerEndpoint :: Event.openRead path ::
            Event.readAll path content :: Event.closeFile path ::
              Event.rpcRequest "sysconfig" "importConfiguration"
                [("configuration", content)] :: rest) := by
  constructor
  · rintro ⟨prog, path, rfl, hn⟩ wk m a
    by_cases hcon : w.connectOk = false
    · simp [importConfigRun, hcon]
    · simp [importConfigRun, hcon, hn]
  · intro wk m a hp
    by_cases hcon : w.connectOk = false
    · simp [importConfigRun, hcon] at hp
    · rcases argv with _ | ⟨x, _ | ⟨path, _ | ⟨y, rest⟩⟩⟩
      · simp [importConfigRun, hcon] at hp
      · simp [importConfigRun, hcon] at hp
      · cases hr : w.readFile path with
        | none => simp [importConfigRun, hcon, hr] at hp
        | some content =>
          cases hi : w.importRPC content with
          | error e =>
            simp [importConfigRun, hcon, hr, hi] at hp
            obtain ⟨h1, h2, h3⟩ := hp
            exact ⟨path, content, [], hr, h1, h2, h3,
              by simp [importConfigRun, hcon, hr, hi]⟩
          | ok u =>
            cases u
            simp [importConfigRun, hcon, hr, hi] at hp
            obtain ⟨h1, h2, h3⟩ := hp
            exact ⟨path, content, [Event.rpcReply], hr, h1, h2, h3,
              by simp [importConfigRun, hcon, hr, hi]⟩
      · simp [importConfigRun, hcon] at hp

/-- C10 witness: a concrete successful import run, exhibiting the file
open, full read and close strictly before the request. -/
theorem importReadsFileBeforeRpc_wit :
    ∃ path content rest, wDemo.readFile path = some content ∧
      "sysconfig" = "sysconfig" ∧ "importConfiguration" = "importConfiguration" ∧
      ([("configuration", "key=value\n")] : List (String × String)) =
        [("configuration", content)] ∧
      (importConfigRun wDemo ["import-config.py", "out.cfg"] []).1 =
        Event.clientConstruct brokerEndpoint :: Event.openRead path ::
          Event.readAll path content :: Event.closeFile path ::
            Event.rpcRequest "sysconfig" "importConfiguration"
              [("configuration", content)] :: rest :=
  (importReadsFileBeforeRpc wDemo ["import-config.py", "out.cfg"] []).2
    "sysconfig" "importConfiguration" [("configuration", "key=value\n")] (by decide)

end Sysconfig
